import Mathlib

/-
Verification development for the Excel MCP server (src/excel/server.py).

The server keeps two module-level dicts,
  WORKBOOKS  : path -> pd.ExcelFile   (an open handle, i.e. a snapshot of the file)
  DATAFRAMES : path -> (sheet name -> pd.DataFrame),
keyed by `normalize_path` (os.path.abspath of os.path.expanduser), and exposes
resources `list_sheets` / `get_sheet_data` and tools `read_excel`, `query_excel`,
`update_cell`, `add_row`, `create_sheet`.

Embedding conventions:
  - a Python dict is a lookup function `String -> Option _` (`FMap`);
  - a pandas DataFrame is its column names plus its rows of cell values
    (cell values are strings: every value written by the tools is a string);
  - the filesystem is a map from path to workbook content; `pd.ExcelFile`
    snapshots that content at open time;
  - each operation is a state-passing function.  The body of each Python
    `try:` block is a structured function returning `Except XErr _` (the
    error names follow the specification's taxonomy; in Python they are the
    exceptions raised by pandas/openpyxl), and the public tool is a wrapper
    that renders the caught exception as the `"Error ...: "` text, exactly
    as the `except` clause does.
-/

/-- Finite string-keyed map, modelling a Python dict (lookup view; insertion
order is irrelevant to every property below). -/
abbrev FMap (α : Type) := String → Option α

def FMap.emp {α : Type} : FMap α := fun _ => none

/-- Dict assignment `m[k] = v`. -/
def FMap.set {α : Type} (m : FMap α) (k : String) (v : α) : FMap α :=
  fun q => if q = k then some v else m q

/-- Dict deletion `del m[k]` guarded by `if k in m` (deleting an absent key is
the identity, matching the guarded deletes in `create_sheet`). -/
def FMap.del {α : Type} (m : FMap α) (k : String) : FMap α :=
  fun q => if q = k then none else m q

/-- Membership test `k in m`. -/
def FMap.hasKey {α : Type} (m : FMap α) (k : String) : Bool := (m k).isSome

/- ----------------------------------------------------------------
Path normalizer: `normalize_path(path) = os.path.abspath(os.path.expanduser(path))`.
The POSIX implementations of `expanduser`, `join` and `normpath` are translated
from CPython's `posixpath`, over `List Char`.  The process environment (HOME)
and current working directory, which the Python functions read implicitly, are
explicit parameters `home` and `cwd`.
---------------------------------------------------------------- -/

/-- Split a character list on '/' (CPython `path.split('/')`). -/
def splitSlash : List Char → List (List Char)
  | [] => [[]]
  | '/' :: rest => [] :: splitSlash rest
  | c :: rest =>
    match splitSlash rest with
    | [] => [[c]]
    | comp :: comps => (c :: comp) :: comps

/-- Join components with '/' (CPython `'/'.join(comps)`). -/
def joinSlash (comps : List (List Char)) : List Char :=
  (comps.intersperse ['/']).flatten

/-- One step of `posixpath.normpath`'s component loop: skip empty and `.`
components, push ordinary components, pop on `..` (except at an absolute
root, or when the stack is empty for a relative path, or on stacked `..`). -/
def normStep (initialSlashes : Bool) (stack : List (List Char)) (comp : List Char) :
    List (List Char) :=
  if comp = [] ∨ comp = ['.'] then stack
  else if comp ≠ ['.', '.'] ∨ (¬ initialSlashes ∧ stack = []) ∨
      (stack ≠ [] ∧ stack.getLast? = some ['.', '.']) then stack ++ [comp]
  else if stack ≠ [] then stack.dropLast
  else stack

/-- CPython `posixpath.normpath`, including the special treatment of a
leading `//` (kept as two slashes, per POSIX). -/
def normpathL (p : List Char) : List Char :=
  if p = [] then ['.']
  else
    let initialSlashes : Nat :=
      if p.head? = some '/' then
        if p.take 2 = ['/', '/'] ∧ p.take 3 ≠ ['/', '/', '/'] then 2 else 1
      else 0
    let newComps := (splitSlash p).foldl (normStep (initialSlashes ≠ 0)) []
    let res := List.replicate initialSlashes '/' ++ joinSlash newComps
    if res = [] then ['.'] else res

/-- Strip trailing '/' characters (CPython `userhome.rstrip('/')`). -/
def rstripSlash (l : List Char) : List Char :=
  (l.reverse.dropWhile (· = '/')).reverse

/-- CPython `posixpath.expanduser` with HOME = `home`.  A `~user` form looks
up the system user database; the model treats every named user as unknown, in
which case CPython returns the path unchanged (no claim involves `~user`). -/
def expanduserL (home p : List Char) : List Char :=
  if p.head? = some '~' then
    let rest := p.tail
    let user := rest.takeWhile (· ≠ '/')
    let tail := rest.dropWhile (· ≠ '/')
    if user = [] then
      let uh := rstripSlash home
      if uh ++ tail = [] then ['/'] else uh ++ tail
    else p
  else p

/-- Absolute path test (CPython `path.startswith('/')`). -/
def isAbsL (p : List Char) : Bool := p.head? = some '/'

/-- CPython `posixpath.join` for two arguments, second argument relative or
absolute. -/
def joinL (a b : List Char) : List Char :=
  if isAbsL b then b
  else if a = [] ∨ a.getLast? = some '/' then a ++ b
  else a ++ '/' :: b

/-- CPython `posixpath.abspath` with current working directory `cwd`. -/
def abspathL (cwd p : List Char) : List Char :=
  normpathL (if isAbsL p then p else joinL cwd p)

/-- The server's `normalize_path`: `os.path.abspath(os.path.expanduser(path))`,
with the process HOME and cwd as explicit parameters. -/
def normalize_path (home cwd path : String) : String :=
  ⟨abspathL cwd.data (expanduserL home.data path.data)⟩

/- ----------------------------------------------------------------
Data model.
---------------------------------------------------------------- -/

/-- In-memory sheet table (pandas DataFrame): named columns and rows of cell
values.  A real DataFrame is rectangular; that fact is the separate predicate
`DataFrame.WF` below. -/
structure DataFrame where
  columns : List String
  rows : List (List String)
deriving DecidableEq

/-- A pandas DataFrame is rectangular: every row has one cell per column. -/
def DataFrame.WF (df : DataFrame) : Prop :=
  ∀ r ∈ df.rows, r.length = df.columns.length

instance (df : DataFrame) : Decidable df.WF := by
  unfold DataFrame.WF; infer_instance

/-- Workbook content: the ordered sheets of one file. -/
abbrev Workbook := List (String × DataFrame)

def Workbook.sheetNames (wb : Workbook) : List String := wb.map (·.1)

/-- Sheet lookup by name (what `pd.read_excel(ExcelFile, sheet_name)` reads). -/
def Workbook.findSheet (wb : Workbook) (s : String) : Option DataFrame :=
  (wb.find? (fun e => e.1 = s)).map (·.2)

def Workbook.hasSheet (wb : Workbook) (s : String) : Bool :=
  (Workbook.findSheet wb s).isSome

/-- Effect of `pd.ExcelWriter(path, mode='a', if_sheet_exists='replace')` plus
`df.to_excel(writer, sheet_name, index=False)`: replace the named sheet in
place, or append it if the file does not have it. -/
def Workbook.replaceSheet (wb : Workbook) (s : String) (df : DataFrame) : Workbook :=
  if Workbook.hasSheet wb s then
    wb.map (fun e => if e.1 = s then (s, df) else e)
  else wb ++ [(s, df)]

def Workbook.WF (wb : Workbook) : Prop := ∀ e ∈ wb, DataFrame.WF e.2

instance (wb : Workbook) : Decidable wb.WF := by
  unfold Workbook.WF
  infer_instance

/-- Whole process state: the filesystem plus the two module-level dicts.
`WORKBOOKS` holds the workbook content as snapshotted when `pd.ExcelFile`
opened the file (an open handle does not see later writes to the path). -/
structure ServerState where
  disk : FMap Workbook
  WORKBOOKS : FMap Workbook
  DATAFRAMES : FMap (FMap DataFrame)

/-- Error taxonomy of the specification.  In the Python source these are the
exceptions raised by the libraries: `FileNotFoundError` from `pd.ExcelFile` /
`pd.ExcelWriter(mode='a')`, the missing-worksheet error from `pd.read_excel`,
`IndexError` from `.iloc`, `ValueError` from `.loc` row assignment, the
openpyxl duplicate-sheet `ValueError`, and `KeyError` from a dict lookup. -/
inductive XErr where
  | FileAccessError
  | SheetNotFoundError
  | IndexOutOfRange
  | ColumnCountMismatch
  | DuplicateSheetError
  | KeyError
deriving DecidableEq

/-- Message text of the caught exception (models Python `str(e)`; the exact
wording comes from the libraries and no property depends on it). -/
def XErr.msg : XErr → String
  | .FileAccessError => "No such file or directory"
  | .SheetNotFoundError => "Worksheet not found"
  | .IndexOutOfRange => "iloc cannot enlarge its target object"
  | .ColumnCountMismatch => "cannot set a row with mismatched columns"
  | .DuplicateSheetError => "Sheet already exists and if_sheet_exists is set to error."
  | .KeyError => "KeyError"

/- ----------------------------------------------------------------
Operations.
---------------------------------------------------------------- -/

/-- The block
      if path not in WORKBOOKS:
          WORKBOOKS[path] = pd.ExcelFile(path)
          DATAFRAMES[path] = \x7b\x7d
which `list_sheets` and the sheet-loading block run.  `pd.ExcelFile(path)`
raises (FileAccessError) when the file cannot be opened, before either dict
is assigned. -/
def ensureWorkbook (st : ServerState) (path : String) : Except XErr ServerState :=
  if (st.WORKBOOKS path).isSome then .ok st
  else
    match st.disk path with
    | none => .error .FileAccessError
    | some wb =>
      .ok { st with WORKBOOKS := FMap.set st.WORKBOOKS path wb,
                    DATAFRAMES := FMap.set st.DATAFRAMES path FMap.emp }

/-- Test `path not in DATAFRAMES or sheet_name not in DATAFRAMES[path]`. -/
def cacheMiss (st : ServerState) (path sheet : String) : Bool :=
  match st.DATAFRAMES path with
  | none => true
  | some m => (m sheet).isNone

/-- The sheet-loading block repeated verbatim in `get_sheet_data`,
`query_excel`, `update_cell` and `add_row`:

      if path not in DATAFRAMES or sheet_name not in DATAFRAMES[path]:
          if path not in WORKBOOKS:
              WORKBOOKS[path] = pd.ExcelFile(path)
              DATAFRAMES[path] = \x7b\x7d
          DATAFRAMES[path][sheet_name] = pd.read_excel(WORKBOOKS[path], sheet_name)
      df = DATAFRAMES[path][sheet_name]

The right-hand side of the inner assignment is evaluated first
(`WORKBOOKS[path]` lookup, then the sheet read), and only then the assignment
target `DATAFRAMES[path]` is looked up; each step can raise, and earlier state
updates persist. -/
def loadSheet (st : ServerState) (path sheet : String) :
    Except XErr DataFrame × ServerState :=
  if cacheMiss st path sheet then
    match ensureWorkbook st path with
    | .error e => (.error e, st)
    | .ok st1 =>
      match st1.WORKBOOKS path with
      | none => (.error .KeyError, st1)
      | some wb =>
        match Workbook.findSheet wb sheet with
        | none => (.error .SheetNotFoundError, st1)
        | some df =>
          match st1.DATAFRAMES path with
          | none => (.error .KeyError, st1)
          | some m =>
            (.ok df,
             { st1 with DATAFRAMES := FMap.set st1.DATAFRAMES path (FMap.set m sheet df) })
  else
    match st.DATAFRAMES path with
    | none => (.error .KeyError, st)
    | some m =>
      match m sheet with
      | none => (.error .KeyError, st)
      | some df => (.ok df, st)

/-- In-place mutation of the cached DataFrame object: Python mutates the
shared object, so the cache entry for `(path, sheet)` now holds `df`.
(`loadSheet` guarantees the entry exists whenever this runs.) -/
def setCachedDF (st : ServerState) (path sheet : String) (df : DataFrame) : ServerState :=
  match st.DATAFRAMES path with
  | none => st
  | some m => { st with DATAFRAMES := FMap.set st.DATAFRAMES path (FMap.set m sheet df) }

/-- Write-back step of `update_cell` / `add_row`:
`with pd.ExcelWriter(path, engine='openpyxl', mode='a', if_sheet_exists='replace')`
plus `df.to_excel(writer, sheet_name, index=False)`.  Append mode requires the
file to exist. -/
def writeSheet (st : ServerState) (path sheet : String) (df : DataFrame) :
    Except XErr ServerState :=
  match st.disk path with
  | none => .error .FileAccessError
  | some wb =>
    .ok { st with disk := FMap.set st.disk path (Workbook.replaceSheet wb sheet df) }

/-- Resource `excel://\x7bfile_path\x7d/sheets` (`list_sheets`).  Not wrapped in
try/except: errors propagate to the dispatcher.  The JSON payload is the
normalized path together with `WORKBOOKS[path].sheet_names`. -/
def listSheets (home cwd : String) (file_path : String) (st : ServerState) :
    Except XErr (String × List String) × ServerState :=
  let path := normalize_path home cwd file_path
  match ensureWorkbook st path with
  | .error e => (.error e, st)
  | .ok st1 =>
    match st1.WORKBOOKS path with
    | none => (.error .KeyError, st1)
    | some wb => (.ok (path, Workbook.sheetNames wb), st1)

/-- Row records of `df.to_json(orient='records', date_format='iso')`: one
record per row, pairing each column name with the cell value. -/
def toRecords (df : DataFrame) : List (List (String × String)) :=
  df.rows.map (fun row => df.columns.zip row)

/-- Resource `excel://\x7bfile_path\x7d/sheet/\x7bsheet_name\x7d` (`get_sheet_data`).
Not wrapped in try/except. -/
def getSheetData (home cwd : String) (file_path sheet_name : String) (st : ServerState) :
    Except XErr (List (List (String × String))) × ServerState :=
  let path := normalize_path home cwd file_path
  match loadSheet st path sheet_name with
  | (.error e, st1) => (.error e, st1)
  | (.ok df, st1) => (.ok (toRecords df), st1)

/-- Plain-text rendering of a DataFrame, modelling `df.to_string()` as an
arbitrary fixed deterministic function of the frame (no property depends on
the exact layout). -/
def renderDF (df : DataFrame) : String :=
  String.intercalate " " df.columns ++
    String.join (df.rows.map (fun r => "\n" ++ String.intercalate " " r))

/-- Tool `read_excel(file_path, sheet_name=None)`: reads straight from disk
with `pd.read_excel(path, ...)`, never touching the dicts; failures are caught
and rendered as text.  Python tests `if sheet_name:`, so an empty string also
selects the all-sheets branch. -/
def readExcel (home cwd : String) (file_path : String) (sheet_name : Option String)
    (st : ServerState) : String × ServerState :=
  let path := normalize_path home cwd file_path
  let err := fun (e : XErr) => ("Error reading Excel file: " ++ XErr.msg e, st)
  match sheet_name with
  | some s =>
    if s = "" then
      match st.disk path with
      | none => err .FileAccessError
      | some wb =>
        (String.intercalate "\n\n"
          (wb.map (fun e => "Sheet: " ++ e.1 ++ "\n" ++ renderDF e.2)), st)
    else
      match st.disk path with
      | none => err .FileAccessError
      | some wb =>
        match Workbook.findSheet wb s with
        | none => err .SheetNotFoundError
        | some df => (renderDF df, st)
  | none =>
    match st.disk path with
    | none => err .FileAccessError
    | some wb =>
      (String.intercalate "\n\n"
        (wb.map (fun e => "Sheet: " ++ e.1 ++ "\n" ++ renderDF e.2)), st)

/-- Tool `query_excel`: loads through the cache and runs `df.query(query)`.
The pandas query engine is an external collaborator, passed in as `queryFn`
(it returns either a filtered frame or the message of the raised error);
it does not touch server state. -/
def queryExcel (queryFn : String → DataFrame → Except String DataFrame)
    (home cwd : String) (file_path sheet_name query : String) (st : ServerState) :
    String × ServerState :=
  let path := normalize_path home cwd file_path
  match loadSheet st path sheet_name with
  | (.error e, st1) => ("Error querying Excel data: " ++ XErr.msg e, st1)
  | (.ok df, st1) =>
    match queryFn query df with
    | .error m => ("Error querying Excel data: " ++ m, st1)
    | .ok res => (renderDF res, st1)

/-- Column-letter arithmetic of `update_cell`:

      col_idx = 0
      for char in column.upper():
          col_idx = col_idx * 26 + (ord(char) - ord('A') + 1)
      col_idx -= 1

Computed over `Int`, as Python ints (a non-letter character yields a value
outside 1..26 rather than an error). -/
def colLetterIdx (column : String) : Int :=
  (column.data.map Char.toUpper).foldl
    (fun acc ch => acc * 26 + ((ch.toNat : Int) - 65 + 1)) 0 - 1

/-- Positional cell assignment `df.iloc[r, c] = v`: Python negative indices
count from the end; an index outside `[-len, len)` in either axis raises
`IndexError` (iloc cannot enlarge its target object). -/
def ilocSet (df : DataFrame) (r c : Int) (v : String) : Except XErr DataFrame :=
  let n : Int := df.rows.length
  let m : Int := df.columns.length
  if -n ≤ r ∧ r < n ∧ -m ≤ c ∧ c < m then
    let ri := (if r < 0 then r + n else r).toNat
    let ci := (if c < 0 then c + m else c).toNat
    .ok { df with rows := df.rows.set ri ((df.rows.getD ri []).set ci v) }
  else .error .IndexOutOfRange

/-- Body of the `try` block of tool `update_cell` (structured-error layer). -/
def updateCellE (home cwd : String) (file_path sheet_name : String) (row : Int)
    (column value : String) (st : ServerState) : Except XErr String × ServerState :=
  let path := normalize_path home cwd file_path
  match loadSheet st path sheet_name with
  | (.error e, st1) => (.error e, st1)
  | (.ok df, st1) =>
    match ilocSet df (row - 1) (colLetterIdx column) value with
    | .error e => (.error e, st1)
    | .ok df2 =>
      let st2 := setCachedDF st1 path sheet_name df2
      match writeSheet st2 path sheet_name df2 with
      | .error e => (.error e, st2)
      | .ok st3 =>
        (.ok ("Updated cell " ++ column ++ toString row ++ " to " ++ value ++
              " in sheet " ++ sheet_name), st3)

/-- Tool `update_cell`: the `except` clause renders any raised error as text
(the Python message wraps the value and sheet name in single-quote characters,
omitted here). -/
def updateCell (home cwd : String) (file_path sheet_name : String) (row : Int)
    (column value : String) (st : ServerState) : String × ServerState :=
  match updateCellE home cwd file_path sheet_name row column value st with
  | (.error e, st1) => ("Error updating cell: " ++ XErr.msg e, st1)
  | (.ok msg, st1) => (msg, st1)

/-- Row append `df.loc[len(df)] = values`: raises `ValueError` (the
specification's ColumnCountMismatch) when the list length differs from the
column count, otherwise appends the row (frames read from a file carry the
default range index, so label `len(df)` is always fresh). -/
def locAppendRow (df : DataFrame) (values : List String) : Except XErr DataFrame :=
  if values.length = df.columns.length then
    .ok { df with rows := df.rows ++ [values] }
  else .error .ColumnCountMismatch

/-- Body of the `try` block of tool `add_row` (structured-error layer). -/
def addRowE (home cwd : String) (file_path sheet_name : String) (values : List String)
    (st : ServerState) : Except XErr String × ServerState :=
  let path := normalize_path home cwd file_path
  match loadSheet st path sheet_name with
  | (.error e, st1) => (.error e, st1)
  | (.ok df, st1) =>
    match locAppendRow df values with
    | .error e => (.error e, st1)
    | .ok df2 =>
      let st2 := setCachedDF st1 path sheet_name df2
      match writeSheet st2 path sheet_name df2 with
      | .error e => (.error e, st2)
      | .ok st3 => (.ok ("Added new row to sheet " ++ sheet_name), st3)

/-- Tool `add_row` (textual layer). -/
def addRow (home cwd : String) (file_path sheet_name : String) (values : List String)
    (st : ServerState) : String × ServerState :=
  match addRowE home cwd file_path sheet_name values st with
  | (.error e, st1) => ("Error adding row: " ++ XErr.msg e, st1)
  | (.ok msg, st1) => (msg, st1)

/-- Body of the `try` block of tool `create_sheet`:
`pd.ExcelWriter(path, engine='openpyxl', mode='a')` — append mode without
`if_sheet_exists`, so writing a sheet name already in the file raises the
openpyxl duplicate-sheet error and the file keeps its previous sheets; on
success the new empty sheet (headers, no rows) is appended and then both
cache entries for the path are dropped (`if path in WORKBOOKS: del ...`,
`if path in DATAFRAMES: del ...`).  On error the deletes are never reached. -/
def createSheetE (home cwd : String) (file_path sheet_name : String)
    (headers : List String) (st : ServerState) : Except XErr String × ServerState :=
  let path := normalize_path home cwd file_path
  let df : DataFrame := { columns := headers, rows := [] }
  match st.disk path with
  | none => (.error .FileAccessError, st)
  | some wb =>
    if Workbook.hasSheet wb sheet_name then (.error .DuplicateSheetError, st)
    else
      (.ok ("Created new sheet " ++ sheet_name ++ " with headers: " ++
            String.intercalate ", " headers),
       { st with disk := FMap.set st.disk path (wb ++ [(sheet_name, df)]),
                 WORKBOOKS := FMap.del st.WORKBOOKS path,
                 DATAFRAMES := FMap.del st.DATAFRAMES path })

/-- Tool `create_sheet` (textual layer). -/
def createSheet (home cwd : String) (file_path sheet_name : String)
    (headers : List String) (st : ServerState) : String × ServerState :=
  match createSheetE home cwd file_path sheet_name headers st with
  | (.error e, st1) => ("Error creating sheet: " ++ XErr.msg e, st1)
  | (.ok msg, st1) => (msg, st1)

/- ----------------------------------------------------------------
Derived predicates used by the statements.
---------------------------------------------------------------- -/

/-- Rectangularity of every frame reachable from the state (disk files,
open-handle snapshots, cached tables). -/
def ServerState.WF (st : ServerState) : Prop :=
  (∀ p wb, st.disk p = some wb → Workbook.WF wb) ∧
  (∀ p wb, st.WORKBOOKS p = some wb → Workbook.WF wb) ∧
  (∀ p m s df, st.DATAFRAMES p = some m → m s = some df → DataFrame.WF df)

/-- The key-set invariant of claim C10: a path has a workbook handle iff it
has a (possibly empty) sheet-table mapping. -/
def KeyInv (st : ServerState) : Prop :=
  ∀ p, (st.WORKBOOKS p).isSome = (st.DATAFRAMES p).isSome

/-- Cell of a record list at 0-based row `i`, column `j` (the value part). -/
def cellOfRecords (recs : List (List (String × String))) (i j : Nat) : Option String :=
  recs[i]?.bind (fun row => row[j]?.map (·.2))

/-- Modelled from the spec: what is missing from src/ is the operating
system's file namespace, which decides when two textual paths "denote the
same file".  The OS resolves symbolic links; `os.path.abspath` (hence
`normalize_path`) performs only lexical normalization and does not.  A
filesystem is summarized by its symlink table; a path not in the table is
its own file identity. -/
def resolveSymlinks (links : List (String × String)) (p : String) : String :=
  ((links.find? (fun e => e.1 = p)).map (·.2)).getD p

/-- Two textual paths denote the same file when, after the server's own
normalization, the OS resolves them to the same file identity. -/
def denotesSameFile (links : List (String × String)) (home cwd p q : String) : Prop :=
  resolveSymlinks links (normalize_path home cwd p) =
    resolveSymlinks links (normalize_path home cwd q)

/- ----------------------------------------------------------------
Concrete fixtures for the witness scenarios (the shape of the spec's
end-to-end example: sheet "Sheet1" with rows x,1 and y,2).
---------------------------------------------------------------- -/

def dfFix : DataFrame := { columns := ["A", "B"], rows := [["x", "1"], ["y", "2"]] }

def wbFix : Workbook := [("Sheet1", dfFix)]

def mFix : FMap DataFrame := FMap.set FMap.emp "Sheet1" dfFix

/-- State with the file on disk and sheet "Sheet1" already cached in both
dicts. -/
def stCached : ServerState :=
  { disk := FMap.set FMap.emp "/f.xlsx" wbFix,
    WORKBOOKS := FMap.set FMap.emp "/f.xlsx" wbFix,
    DATAFRAMES := FMap.set FMap.emp "/f.xlsx" mFix }

/-- State with the file on disk and an empty cache. -/
def stFresh : ServerState :=
  { disk := FMap.set FMap.emp "/f.xlsx" wbFix,
    WORKBOOKS := FMap.emp, DATAFRAMES := FMap.emp }

/- ----------------------------------------------------------------
Basic lemmas about the embedding.
---------------------------------------------------------------- -/

theorem FMap.set_self {α : Type} (m : FMap α) (k : String) (v : α) :
    FMap.set m k v k = some v := by
  simp [FMap.set]

theorem FMap.set_ne {α : Type} (m : FMap α) (k q : String) (v : α) (h : q ≠ k) :
    FMap.set m k v q = m q := by
  simp [FMap.set, h]

theorem FMap.del_self {α : Type} (m : FMap α) (k : String) :
    FMap.del m k k = none := by
  simp [FMap.del]

theorem FMap.set_emp_some {α : Type} {k q : String} {v w : α}
    (h : FMap.set FMap.emp k v q = some w) : w = v := by
  by_cases hq : q = k
  · rw [hq, FMap.set_self] at h
    exact (Option.some.inj h).symm
  · simp [FMap.set, FMap.emp, hq] at h

/-- A sheet found in a rectangular workbook is rectangular. -/
theorem Workbook.findSheet_WF {wb : Workbook} {s : String} {df : DataFrame}
    (hwf : Workbook.WF wb) (h : Workbook.findSheet wb s = some df) : df.WF := by
  unfold Workbook.findSheet at h
  cases hfind : wb.find? (fun e => e.1 = s) with
  | none => rw [hfind] at h; cases h
  | some e =>
    rw [hfind] at h
    have hmem := List.mem_of_find?_eq_some hfind
    have := hwf e hmem
    cases h
    exact this

/-- When the caller's two dict lookups hit, the loading block is a no-op
returning the cached frame. -/
theorem loadSheet_cacheHit (st : ServerState) (path sheet : String)
    (m : FMap DataFrame) (df : DataFrame)
    (hm : st.DATAFRAMES path = some m) (hs : m sheet = some df) :
    loadSheet st path sheet = (.ok df, st) := by
  have hmiss : cacheMiss st path sheet = false := by
    simp [cacheMiss, hm, hs]
  simp [loadSheet, hmiss, hm, hs]

/-- A successful load leaves the frame in the sheet-table dict. -/
theorem loadSheet_ok_cache {st st' : ServerState} {path sheet : String} {df : DataFrame}
    (h : loadSheet st path sheet = (.ok df, st')) :
    ∃ m, st'.DATAFRAMES path = some m ∧ m sheet = some df := by
  unfold loadSheet at h
  split at h
  · split at h
    · simp at h
    · split at h
      · simp at h
      · split at h
        · simp at h
        · split at h
          · simp at h
          · injection h with h1 h2
            injection h1 with h1
            subst h1
            subst h2
            exact ⟨_, FMap.set_self .., FMap.set_self ..⟩
  · split at h
    · simp at h
    · split at h
      · simp at h
      · injection h with h1 h2
        injection h1 with h1
        subst h1
        subst h2
        exact ⟨_, by assumption, by assumption⟩

/-- Opening a workbook preserves rectangularity of everything reachable. -/
theorem ensureWorkbook_ok_WF {st st1 : ServerState} {path : String}
    (hwf : ServerState.WF st) (h : ensureWorkbook st path = .ok st1) :
    ServerState.WF st1 := by
  unfold ensureWorkbook at h
  split at h
  · injection h with h
    subst h
    exact hwf
  · split at h
    · cases h
    · injection h with h
      subst h
      obtain ⟨h1, h2, h3⟩ := hwf
      refine ⟨h1, ?_, ?_⟩
      · intro q wb hq
        by_cases hqp : q = path
        · subst hqp
          simp [FMap.set] at hq
          subst hq
          exact h1 _ _ (by assumption)
        · simp [FMap.set, hqp] at hq
          exact h2 _ _ hq
      · intro q mm s df hq hs
        by_cases hqp : q = path
        · subst hqp
          simp [FMap.set] at hq
          subst hq
          simp [FMap.emp] at hs
        · simp [FMap.set, hqp] at hq
          exact h3 _ _ _ _ hq hs

/-- A frame handed out by the loading block is rectangular when the state is. -/
theorem loadSheet_ok_WF {st st' : ServerState} {path sheet : String} {df : DataFrame}
    (hwf : ServerState.WF st) (h : loadSheet st path sheet = (.ok df, st')) :
    df.WF := by
  unfold loadSheet at h
  split at h
  · split at h
    · simp at h
    · split at h
      · simp at h
      · split at h
        · simp at h
        · split at h
          · simp at h
          · injection h with h1 h2
            injection h1 with h1
            subst h1
            have hwf1 := ensureWorkbook_ok_WF hwf (by assumption)
            exact Workbook.findSheet_WF (hwf1.2.1 _ _ (by assumption)) (by assumption)
  · split at h
    · simp at h
    · split at h
      · simp at h
      · injection h with h1 h2
        injection h1 with h1
        subst h1
        exact hwf.2.2 _ _ _ _ (by assumption) (by assumption)

/- ----------------------------------------------------------------
Claim C3: the column-letter conversion.
---------------------------------------------------------------- -/

/-- C3: for every Excel-style column letter string in A..Z and AA..ZZ, the
conversion loop of `update_cell` (index = index*26 + letter - 'A' + 1 over the
letters, minus 1 at the end) yields the zero-based indices 0..25 and 26..701
respectively; in particular A yields 0, Z yields 25, AA yields 26, ZZ yields
701 (the two-letter value 26*(a+1)+b ranges over exactly 26..701). -/
theorem c3_column_letters :
    ∀ a < 26, ∀ b < 26,
      colLetterIdx ⟨[Char.ofNat (65 + a)]⟩ = (a : Int) ∧
      colLetterIdx ⟨[Char.ofNat (65 + a), Char.ofNat (65 + b)]⟩ =
        26 * ((a : Int) + 1) + (b : Int) ∧
      0 ≤ (a : Int) ∧ (a : Int) ≤ 25 ∧
      26 ≤ 26 * ((a : Int) + 1) + (b : Int) ∧
      26 * ((a : Int) + 1) + (b : Int) ≤ 701 := by
  decide

/-- Witness for C3 at the corner letters A and ZZ. -/
theorem c3_column_letters_witness :
    colLetterIdx ⟨[Char.ofNat (65 + 0)]⟩ = ((0 : Nat) : Int) ∧
    colLetterIdx ⟨[Char.ofNat (65 + 25), Char.ofNat (65 + 25)]⟩ =
      26 * (((25 : Nat) : Int) + 1) + ((25 : Nat) : Int) :=
  ⟨(c3_column_letters 0 (by decide) 0 (by decide)).1,
   (c3_column_letters 25 (by decide) 25 (by decide)).2.1⟩

/- ----------------------------------------------------------------
Claims C4, C5, C6: error paths of the mutation operations.
---------------------------------------------------------------- -/

/-- C4: with the sheet cached, a 1-based row number beyond the table's row
count (or a column index beyond its column count) makes `update_cell` fail
with IndexOutOfRange; the write-back step is never reached, so the whole
state — the on-disk file included — is unchanged, and the tool reports the
caught error as text. -/
theorem c4_out_of_range (home cwd p s c v : String) (r : Int) (st : ServerState)
    (m : FMap DataFrame) (df : DataFrame)
    (hm : st.DATAFRAMES (normalize_path home cwd p) = some m)
    (hdf : m s = some df)
    (hover : (df.rows.length : Int) < r ∨ (df.columns.length : Int) ≤ colLetterIdx c) :
    updateCellE home cwd p s r c v st = (.error .IndexOutOfRange, st) ∧
    updateCell home cwd p s r c v st =
      ("Error updating cell: " ++ XErr.msg .IndexOutOfRange, st) := by
  have hload := loadSheet_cacheHit st (normalize_path home cwd p) s m df hm hdf
  have hneg : ¬(-(df.rows.length : Int) ≤ r - 1 ∧ r - 1 < (df.rows.length : Int) ∧
      -(df.columns.length : Int) ≤ colLetterIdx c ∧
      colLetterIdx c < (df.columns.length : Int)) := by
    rcases hover with h | h
    · rintro ⟨_, h2, _, _⟩
      omega
    · rintro ⟨_, _, _, h4⟩
      omega
  have hiloc : ilocSet df (r - 1) (colLetterIdx c) v = .error .IndexOutOfRange := by
    simp only [ilocSet]
    rw [if_neg hneg]
  have h1 : updateCellE home cwd p s r c v st = (.error .IndexOutOfRange, st) := by
    simp only [updateCellE, hload, hiloc]
  exact ⟨h1, by simp only [updateCell, h1]⟩

/-- Witness for C4: row 5 on the cached two-row sheet fails with
IndexOutOfRange and leaves the state (disk included) untouched. -/
theorem c4_out_of_range_witness :
    stCached.DATAFRAMES (normalize_path "/h" "/c" "/f.xlsx") = some mFix ∧
    updateCellE "/h" "/c" "/f.xlsx" "Sheet1" 5 "B" "99" stCached =
      (.error .IndexOutOfRange, stCached) :=
  ⟨rfl,
   (c4_out_of_range "/h" "/c" "/f.xlsx" "Sheet1" "B" "99" 5 stCached mFix dfFix
      rfl rfl (Or.inl (by decide))).1⟩

/-- C5: with the sheet cached, `add_row` with a values list whose length
differs from the table's column count fails with ColumnCountMismatch, and the
state — cached table and on-disk file — is unchanged (no row appended). -/
theorem c5_column_count (home cwd p s : String) (values : List String)
    (st : ServerState) (m : FMap DataFrame) (df : DataFrame)
    (hm : st.DATAFRAMES (normalize_path home cwd p) = some m)
    (hdf : m s = some df)
    (hlen : values.length ≠ df.columns.length) :
    addRowE home cwd p s values st = (.error .ColumnCountMismatch, st) ∧
    addRow home cwd p s values st =
      ("Error adding row: " ++ XErr.msg .ColumnCountMismatch, st) := by
  have hload := loadSheet_cacheHit st (normalize_path home cwd p) s m df hm hdf
  have happ : locAppendRow df values = .error .ColumnCountMismatch := by
    simp only [locAppendRow]
    rw [if_neg hlen]
  have h1 : addRowE home cwd p s values st = (.error .ColumnCountMismatch, st) := by
    simp only [addRowE, hload, happ]
  exact ⟨h1, by simp only [addRow, h1]⟩

/-- Witness for C5: a one-element row against the two-column cached sheet. -/
theorem c5_column_count_witness :
    mFix "Sheet1" = some dfFix ∧
    addRowE "/h" "/c" "/f.xlsx" "Sheet1" ["z"] stCached =
      (.error .ColumnCountMismatch, stCached) :=
  ⟨rfl,
   (c5_column_count "/h" "/c" "/f.xlsx" "Sheet1" ["z"] stCached mFix dfFix
      rfl rfl (by decide)).1⟩

/-- C6: when the sheet name already exists in the file at the path,
`create_sheet` fails with DuplicateSheetError and the state — the file's
sheet list included — is unchanged.  (In the source the check is performed by
the append-mode writer, which refuses to write over an existing sheet; the
extensional behaviour is the same as an explicit check.) -/
theorem c6_duplicate_sheet (home cwd p s : String) (headers : List String)
    (st : ServerState) (wb : Workbook)
    (hwb : st.disk (normalize_path home cwd p) = some wb)
    (hdup : Workbook.hasSheet wb s = true) :
    createSheetE home cwd p s headers st = (.error .DuplicateSheetError, st) ∧
    createSheet home cwd p s headers st =
      ("Error creating sheet: " ++ XErr.msg .DuplicateSheetError, st) := by
  have h1 : createSheetE home cwd p s headers st = (.error .DuplicateSheetError, st) := by
    simp only [createSheetE, hwb, hdup]
    simp
  exact ⟨h1, by simp only [createSheet, h1]⟩

/-- Witness for C6: creating "Sheet1" again on the fixture file. -/
theorem c6_duplicate_sheet_witness :
    stCached.disk (normalize_path "/h" "/c" "/f.xlsx") = some wbFix ∧
    createSheetE "/h" "/c" "/f.xlsx" "Sheet1" ["A"] stCached =
      (.error .DuplicateSheetError, stCached) :=
  ⟨rfl,
   (c6_duplicate_sheet "/h" "/c" "/f.xlsx" "Sheet1" ["A"] stCached wbFix
      rfl (by decide)).1⟩

/- ----------------------------------------------------------------
Claim C2: create_sheet invalidates the whole cache entry for the path.
---------------------------------------------------------------- -/

/-- C2: a successful `create_sheet` removes the workbook handle for the path
and drops the entire sheet-table mapping for the path (every sheet, not just
the new one); a subsequent `list_sheets` therefore re-reads the file — its
resulting handle equals the current on-disk content — and its sheet list
includes the new sheet name, whether or not a handle existed before. -/
theorem c2_create_invalidates (home cwd p name : String) (headers : List String)
    (st st1 : ServerState) (msg : String)
    (hsucc : createSheetE home cwd p name headers st = (.ok msg, st1)) :
    st1.WORKBOOKS (normalize_path home cwd p) = none ∧
    st1.DATAFRAMES (normalize_path home cwd p) = none ∧
    ∃ names,
      (listSheets home cwd p st1).1 = .ok (normalize_path home cwd p, names) ∧
      name ∈ names ∧
      (listSheets home cwd p st1).2.WORKBOOKS (normalize_path home cwd p) =
        st1.disk (normalize_path home cwd p) := by
  simp only [createSheetE] at hsucc
  split at hsucc
  · simp at hsucc
  · rename_i wb hdisk
    split at hsucc
    · simp at hsucc
    · rename_i hdup
      injection hsucc with h1 h2
      subst h2
      refine ⟨by simp [FMap.del], by simp [FMap.del], ?_⟩
      refine ⟨Workbook.sheetNames (wb ++ [(name, { columns := headers, rows := [] })]),
        ?_, ?_, ?_⟩
      · unfold listSheets ensureWorkbook
        simp [FMap.del, FMap.set]
      · simp [Workbook.sheetNames]
      · unfold listSheets ensureWorkbook
        simp [FMap.del, FMap.set]

/-- Witness for C2: creating "New" while the handle for the file is cached. -/
theorem c2_create_invalidates_witness :
    createSheetE "/h" "/c" "/f.xlsx" "New" ["A", "B"] stCached =
      (.ok "Created new sheet New with headers: A, B",
       (createSheetE "/h" "/c" "/f.xlsx" "New" ["A", "B"] stCached).2) ∧
    (createSheetE "/h" "/c" "/f.xlsx" "New" ["A", "B"] stCached).2.WORKBOOKS
        (normalize_path "/h" "/c" "/f.xlsx") = none :=
  ⟨rfl,
   (c2_create_invalidates "/h" "/c" "/f.xlsx" "New" ["A", "B"] stCached _ _ rfl).1⟩

/- ----------------------------------------------------------------
Claim C9: row number 0 silently updates the last row.
---------------------------------------------------------------- -/

/-- C9: on a non-empty cached sheet, `update_cell` with row = 0 does not
fail: the 1-based conversion yields index -1, Python negative indexing makes
`.iloc` hit the last row, the cached table's last row is updated at the
resolved column, and the result is written back to the file. -/
theorem c9_row_zero (home cwd p s c v : String) (st : ServerState)
    (m : FMap DataFrame) (df : DataFrame) (wb : Workbook)
    (hm : st.DATAFRAMES (normalize_path home cwd p) = some m)
    (hdf : m s = some df)
    (hdisk : st.disk (normalize_path home cwd p) = some wb)
    (hn : 0 < df.rows.length)
    (hc0 : 0 ≤ colLetterIdx c)
    (hcm : colLetterIdx c < (df.columns.length : Int)) :
    updateCellE home cwd p s 0 c v st =
      (.ok ("Updated cell " ++ c ++ toString (0 : Int) ++ " to " ++ v ++
            " in sheet " ++ s),
       { st with
         disk := (FMap.set st.disk (normalize_path home cwd p)
           (Workbook.replaceSheet wb s
             { df with rows := (df.rows.set (df.rows.length - 1)
                 ((df.rows.getD (df.rows.length - 1) []).set (colLetterIdx c).toNat v)) })),
         DATAFRAMES := (FMap.set st.DATAFRAMES (normalize_path home cwd p)
           (FMap.set m s
             { df with rows := (df.rows.set (df.rows.length - 1)
                 ((df.rows.getD (df.rows.length - 1) []).set (colLetterIdx c).toNat v)) })) }) := by
  have hload := loadSheet_cacheHit st (normalize_path home cwd p) s m df hm hdf
  have hri : (if (0 - 1 : Int) < 0 then (0 - 1 : Int) + df.rows.length else 0 - 1).toNat =
      df.rows.length - 1 := by
    rw [if_pos (by omega)]
    omega
  have hci : (if colLetterIdx c < 0 then colLetterIdx c + df.columns.length
      else colLetterIdx c).toNat = (colLetterIdx c).toNat := by
    rw [if_neg (by omega)]
  have hiloc : ilocSet df (0 - 1) (colLetterIdx c) v =
      .ok { df with rows := (df.rows.set (df.rows.length - 1)
              ((df.rows.getD (df.rows.length - 1) []).set (colLetterIdx c).toNat v)) } := by
    simp only [ilocSet]
    rw [if_pos (by refine ⟨by omega, by omega, by omega, by omega⟩)]
    rw [hri, hci]
  simp only [updateCellE, hload, hiloc, setCachedDF, hm, writeSheet]
  simp only [hdisk]

/-- Witness for C9: row 0 with a valid column letter on the cached two-row
sheet succeeds (and the message names cell B0). -/
theorem c9_row_zero_witness :
    0 < dfFix.rows.length ∧
    (updateCellE "/h" "/c" "/f.xlsx" "Sheet1" 0 "B" "7" stCached).1 =
      .ok ("Updated cell " ++ "B" ++ toString (0 : Int) ++ " to " ++ "7" ++
           " in sheet " ++ "Sheet1") := by
  have h := c9_row_zero "/h" "/c" "/f.xlsx" "Sheet1" "B" "7" stCached mFix dfFix wbFix
    rfl rfl rfl (by decide) (by decide) (by decide)
  exact ⟨by decide, by rw [h]⟩

/- ----------------------------------------------------------------
Claim C1: cache coherence of update_cell with the sheet resource.
---------------------------------------------------------------- -/

/-- Reading a record list at a position where the frame holds a value. -/
theorem cellOfRecords_toRecords {df : DataFrame} {i j : Nat} {row : List String}
    {v : String}
    (hrow : df.rows[i]? = some row) (hv : row[j]? = some v)
    (hj : j < df.columns.length) :
    cellOfRecords (toRecords df) i j = some v := by
  unfold cellOfRecords toRecords
  rw [List.getElem?_map, hrow]
  have hcn : df.columns[j]? = some df.columns[j] := List.getElem?_eq_getElem hj
  have hzip : (df.columns.zip row)[j]? = some (df.columns[j], v) := by
    rw [List.getElem?_zip_eq_some]
    exact ⟨hcn, hv⟩
  simp [hzip]

/-- C1: if `update_cell(p, s, r, c, v)` succeeds with an in-bounds 1-based
row r and a valid column letter c, then `get_sheet_data(p, s)` on the
resulting state returns records holding v at (r-1, column index of c), leaves
the state untouched, and its answer is computed from the cached table alone —
the same answer comes back whatever the disk contains, so the file is not
re-read. -/
theorem c1_cache_coherence (home cwd p s : String) (r : Int) (c v : String)
    (st st1 : ServerState) (msg : String)
    (hwf : ServerState.WF st) (hr : 1 ≤ r) (hc : 0 ≤ colLetterIdx c)
    (hsucc : updateCellE home cwd p s r c v st = (.ok msg, st1)) :
    ∃ recs,
      getSheetData home cwd p s st1 = (.ok recs, st1) ∧
      cellOfRecords recs (r - 1).toNat (colLetterIdx c).toNat = some v ∧
      ∀ d : FMap Workbook,
        (getSheetData home cwd p s { st1 with disk := d }).1 = .ok recs := by
  simp only [updateCellE] at hsucc
  split at hsucc
  · simp at hsucc
  · rename_i df stA hload
    have hdfwf : df.WF := loadSheet_ok_WF hwf hload
    obtain ⟨m1, hm1, hs1⟩ := loadSheet_ok_cache hload
    split at hsucc
    · simp at hsucc
    · rename_i df2 hiloc
      split at hsucc
      · simp at hsucc
      · rename_i st3 hwrite
        injection hsucc with h1 h2
        subst h2
        -- the write-back step only touches the disk
        have hDF : st3.DATAFRAMES = (setCachedDF stA (normalize_path home cwd p) s df2).DATAFRAMES := by
          unfold writeSheet at hwrite
          split at hwrite
          · cases hwrite
          · injection hwrite with hwrite
            rw [← hwrite]
        have hset : (setCachedDF stA (normalize_path home cwd p) s df2).DATAFRAMES =
            FMap.set stA.DATAFRAMES (normalize_path home cwd p) (FMap.set m1 s df2) := by
          unfold setCachedDF
          rw [hm1]
        have hm2 : st3.DATAFRAMES (normalize_path home cwd p) = some (FMap.set m1 s df2) := by
          rw [hDF, hset]
          exact FMap.set_self ..
        have hhit := loadSheet_cacheHit st3 (normalize_path home cwd p) s
          (FMap.set m1 s df2) df2 hm2 (FMap.set_self ..)
        refine ⟨toRecords df2, ?_, ?_, ?_⟩
        · simp only [getSheetData, hhit]
        · -- dissect the successful iloc assignment
          simp only [ilocSet] at hiloc
          split at hiloc
          · rename_i hcond
            obtain ⟨hb1, hb2, hb3, hb4⟩ := hcond
            injection hiloc with hiloc
            subst hiloc
            have e1 : (if r - 1 < 0 then r - 1 + (df.rows.length : Int) else r - 1).toNat
                = (r - 1).toNat := by
              rw [if_neg (by omega)]
            have e2 : (if colLetterIdx c < 0 then colLetterIdx c + (df.columns.length : Int)
                else colLetterIdx c).toNat = (colLetterIdx c).toNat := by
              rw [if_neg (by omega)]
            rw [e1, e2]
            have hilen : (r - 1).toNat < df.rows.length := by omega
            have hrow : (df.rows.set (r - 1).toNat
                ((df.rows.getD (r - 1).toNat []).set (colLetterIdx c).toNat v))[(r - 1).toNat]?
                = some ((df.rows.getD (r - 1).toNat []).set (colLetterIdx c).toNat v) :=
              List.getElem?_set_eq_of_lt _ hilen
            have hlenrow : (df.rows.getD (r - 1).toNat []).length = df.columns.length := by
              rw [List.getD_eq_getElem _ _ hilen]
              exact hdfwf _ (List.getElem_mem ..)
            have hv : ((df.rows.getD (r - 1).toNat []).set (colLetterIdx c).toNat v)[(colLetterIdx c).toNat]?
                = some v :=
              List.getElem?_set_eq_of_lt _ (by omega)
            exact cellOfRecords_toRecords hrow hv
              (by show (colLetterIdx c).toNat < df.columns.length; omega)
          · cases hiloc
        · intro d
          have hhit2 := loadSheet_cacheHit { st3 with disk := d } (normalize_path home cwd p) s
            (FMap.set m1 s df2) df2 hm2 (FMap.set_self ..)
          simp only [getSheetData, hhit2]

/-- Rectangularity of the cached fixture state. -/
theorem stCached_WF : ServerState.WF stCached := by
  refine ⟨?_, ?_, ?_⟩
  · intro p wb h
    have hw := FMap.set_emp_some h
    subst hw
    decide
  · intro p wb h
    have hw := FMap.set_emp_some h
    subst hw
    decide
  · intro p mm s df h hs
    have hw := FMap.set_emp_some h
    subst hw
    have hd := FMap.set_emp_some hs
    subst hd
    decide

/-- Witness for C1: the spec's end-to-end scenario (update B2 to 99, then
read the sheet resource) on the cached fixture. -/
theorem c1_cache_coherence_witness :
    ServerState.WF stCached ∧
    ∃ recs,
      getSheetData "/h" "/c" "/f.xlsx" "Sheet1"
          (updateCellE "/h" "/c" "/f.xlsx" "Sheet1" 2 "B" "99" stCached).2 =
        (.ok recs, (updateCellE "/h" "/c" "/f.xlsx" "Sheet1" 2 "B" "99" stCached).2) ∧
      cellOfRecords recs ((2 : Int) - 1).toNat (colLetterIdx "B").toNat = some "99" ∧
      ∀ d, (getSheetData "/h" "/c" "/f.xlsx" "Sheet1"
          { (updateCellE "/h" "/c" "/f.xlsx" "Sheet1" 2 "B" "99" stCached).2 with
            disk := d }).1 = .ok recs :=
  ⟨stCached_WF,
   c1_cache_coherence "/h" "/c" "/f.xlsx" "Sheet1" 2 "B" "99" stCached _ _
     stCached_WF (by decide) (by decide) rfl⟩

/- ----------------------------------------------------------------
Claim C7: read_excel bypasses the cache entirely.
---------------------------------------------------------------- -/

/-- The `read_excel` tool never writes to the dicts: it hands back the input
state unchanged. -/
theorem readExcel_snd (home cwd fp : String) (sn : Option String) (st : ServerState) :
    (readExcel home cwd fp sn st).2 = st := by
  unfold readExcel
  rcases sn with _ | s
  · rcases hd : st.disk (normalize_path home cwd fp) with _ | wb <;> simp [hd]
  · by_cases hs : s = ""
    · subst hs
      rcases hd : st.disk (normalize_path home cwd fp) with _ | wb <;> simp [hd]
    · simp only [if_neg hs]
      rcases hd : st.disk (normalize_path home cwd fp) with _ | wb
      · simp [hd]
      · rcases hf : Workbook.findSheet wb s with _ | df <;> simp [hd, hf]

/-- C7: `read_excel` reads from disk on every call and never consults or
populates the cache: two states with the same disk give the same text (the
cache contents are irrelevant), the state comes back unchanged, and a missing
file is reported as an error message string rather than an exception. -/
theorem c7_read_disk_only (home cwd fp : String) (sn : Option String)
    (st1 st2 : ServerState) (hdisk : st1.disk = st2.disk) :
    (readExcel home cwd fp sn st1).1 = (readExcel home cwd fp sn st2).1 ∧
    (readExcel home cwd fp sn st1).2 = st1 ∧
    (st1.disk (normalize_path home cwd fp) = none →
      (readExcel home cwd fp sn st1).1 =
        "Error reading Excel file: " ++ XErr.msg .FileAccessError) := by
  refine ⟨?_, readExcel_snd home cwd fp sn st1, ?_⟩
  · unfold readExcel
    rw [hdisk]
    rcases sn with _ | s
    · rcases hd : st2.disk (normalize_path home cwd fp) with _ | wb <;> simp [hd]
    · by_cases hs : s = ""
      · subst hs
        rcases hd : st2.disk (normalize_path home cwd fp) with _ | wb <;> simp [hd]
      · simp only [if_neg hs]
        rcases hd : st2.disk (normalize_path home cwd fp) with _ | wb
        · simp [hd]
        · rcases hf : Workbook.findSheet wb s with _ | df <;> simp [hd, hf]
  · intro hnone
    unfold readExcel
    rcases sn with _ | s
    · simp [hnone]
    · by_cases hs : s = ""
      · subst hs
        simp [hnone]
      · simp [if_neg hs, hnone]

/-- Witness for C7: the same file read through a cached and an uncached
state gives the same text, and the state is untouched. -/
theorem c7_read_disk_only_witness :
    stCached.disk = stFresh.disk ∧
    (readExcel "/h" "/c" "/f.xlsx" (some "Sheet1") stCached).1 =
      (readExcel "/h" "/c" "/f.xlsx" (some "Sheet1") stFresh).1 ∧
    (readExcel "/h" "/c" "/f.xlsx" (some "Sheet1") stCached).2 = stCached :=
  ⟨rfl,
   (c7_read_disk_only "/h" "/c" "/f.xlsx" (some "Sheet1") stCached stFresh rfl).1,
   (c7_read_disk_only "/h" "/c" "/f.xlsx" (some "Sheet1") stCached stFresh rfl).2.1⟩

/- ----------------------------------------------------------------
Claim C10: WORKBOOKS and DATAFRAMES always share their key set.
---------------------------------------------------------------- -/

theorem keyInv_ensure {st st1 : ServerState} {path : String}
    (h : KeyInv st) (hok : ensureWorkbook st path = .ok st1) : KeyInv st1 := by
  unfold ensureWorkbook at hok
  split at hok
  · injection hok with hok
    subst hok
    exact h
  · split at hok
    · cases hok
    · injection hok with hok
      subst hok
      intro q
      by_cases hq : q = path <;> simp [FMap.set, hq, h q]

theorem keyInv_loadSheet (st : ServerState) (path sheet : String)
    (h : KeyInv st) : KeyInv (loadSheet st path sheet).2 := by
  unfold loadSheet
  split
  · split
    · exact h
    · rename_i st1 hok
      split
      · exact keyInv_ensure h hok
      · rename_i wb hwb
        split
        · exact keyInv_ensure h hok
        · split
          · exact keyInv_ensure h hok
          · rename_i m hm
            have h1 := keyInv_ensure h hok
            intro q
            by_cases hq : q = path
            · subst hq
              simp [FMap.set, hwb]
            · simp [FMap.set, hq]
              exact h1 q
  · split
    · exact h
    · split
      · exact h
      · exact h

theorem keyInv_setCached (st : ServerState) (path sheet : String) (df : DataFrame)
    (h : KeyInv st) : KeyInv (setCachedDF st path sheet df) := by
  unfold setCachedDF
  split
  · exact h
  · rename_i m hm
    intro q
    by_cases hq : q = path
    · subst hq
      simp [FMap.set, h q, hm]
    · simp [FMap.set, hq]
      exact h q

theorem keyInv_writeSheet {st st1 : ServerState} {path sheet : String} {df : DataFrame}
    (h : KeyInv st) (hok : writeSheet st path sheet df = .ok st1) : KeyInv st1 := by
  unfold writeSheet at hok
  split at hok
  · cases hok
  · injection hok with hok
    subst hok
    exact h

theorem keyInv_updateCellE (home cwd fp s : String) (r : Int) (c v : String)
    (st : ServerState) (h : KeyInv st) :
    KeyInv (updateCellE home cwd fp s r c v st).2 := by
  have hload := keyInv_loadSheet st (normalize_path home cwd fp) s h
  simp only [updateCellE]
  split
  · rename_i e st1 heq
    rw [heq] at hload
    exact hload
  · rename_i df st1 heq
    rw [heq] at hload
    split
    · exact hload
    · rename_i df2 hiloc
      split
      · exact keyInv_setCached st1 (normalize_path home cwd fp) s df2 hload
      · rename_i st3 hwrite
        exact keyInv_writeSheet (keyInv_setCached st1 (normalize_path home cwd fp) s df2 hload) hwrite

theorem keyInv_addRowE (home cwd fp s : String) (values : List String)
    (st : ServerState) (h : KeyInv st) :
    KeyInv (addRowE home cwd fp s values st).2 := by
  have hload := keyInv_loadSheet st (normalize_path home cwd fp) s h
  simp only [addRowE]
  split
  · rename_i e st1 heq
    rw [heq] at hload
    exact hload
  · rename_i df st1 heq
    rw [heq] at hload
    split
    · exact hload
    · rename_i df2 happ
      split
      · exact keyInv_setCached st1 (normalize_path home cwd fp) s df2 hload
      · rename_i st3 hwrite
        exact keyInv_writeSheet (keyInv_setCached st1 (normalize_path home cwd fp) s df2 hload) hwrite

theorem keyInv_createSheetE (home cwd fp s : String) (headers : List String)
    (st : ServerState) (h : KeyInv st) :
    KeyInv (createSheetE home cwd fp s headers st).2 := by
  simp only [createSheetE]
  split
  · exact h
  · split
    · exact h
    · intro q
      by_cases hq : q = normalize_path home cwd fp <;> simp [FMap.del, hq, h q]

theorem keyInv_listSheets (home cwd fp : String) (st : ServerState) (h : KeyInv st) :
    KeyInv (listSheets home cwd fp st).2 := by
  simp only [listSheets]
  split
  · exact h
  · rename_i st1 hok
    split
    · exact keyInv_ensure h hok
    · exact keyInv_ensure h hok

theorem keyInv_getSheetData (home cwd fp s : String) (st : ServerState) (h : KeyInv st) :
    KeyInv (getSheetData home cwd fp s st).2 := by
  have hload := keyInv_loadSheet st (normalize_path home cwd fp) s h
  simp only [getSheetData]
  split
  · rename_i e st1 heq
    rw [heq] at hload
    exact hload
  · rename_i df st1 heq
    rw [heq] at hload
    exact hload

theorem keyInv_queryExcel (queryFn : String → DataFrame → Except String DataFrame)
    (home cwd fp s q : String) (st : ServerState) (h : KeyInv st) :
    KeyInv (queryExcel queryFn home cwd fp s q st).2 := by
  have hload := keyInv_loadSheet st (normalize_path home cwd fp) s h
  simp only [queryExcel]
  split
  · rename_i e st1 heq
    rw [heq] at hload
    exact hload
  · rename_i df st1 heq
    rw [heq] at hload
    split
    · exact hload
    · exact hload

theorem updateCell_snd (home cwd fp s : String) (r : Int) (c v : String) (st : ServerState) :
    (updateCell home cwd fp s r c v st).2 = (updateCellE home cwd fp s r c v st).2 := by
  unfold updateCell
  rcases h : updateCellE home cwd fp s r c v st with ⟨res, st1⟩
  cases res <;> rfl

theorem addRow_snd (home cwd fp s : String) (values : List String) (st : ServerState) :
    (addRow home cwd fp s values st).2 = (addRowE home cwd fp s values st).2 := by
  unfold addRow
  rcases h : addRowE home cwd fp s values st with ⟨res, st1⟩
  cases res <;> rfl

theorem createSheet_snd (home cwd fp s : String) (headers : List String) (st : ServerState) :
    (createSheet home cwd fp s headers st).2 = (createSheetE home cwd fp s headers st).2 := by
  unfold createSheet
  rcases h : createSheetE home cwd fp s headers st with ⟨res, st1⟩
  cases res <;> rfl

/-- C10: every public operation preserves the invariant that a path is a key
of WORKBOOKS exactly when it is a key of DATAFRAMES: each code path that
registers a workbook handle also registers an (initially empty) sheet-table
dict for the path, and `create_sheet` removes both entries together. -/
theorem c10_key_invariant (home cwd : String) (st : ServerState) (hinv : KeyInv st) :
    (∀ fp, KeyInv (listSheets home cwd fp st).2) ∧
    (∀ fp s, KeyInv (getSheetData home cwd fp s st).2) ∧
    (∀ fp sn, KeyInv (readExcel home cwd fp sn st).2) ∧
    (∀ queryFn fp s q, KeyInv (queryExcel queryFn home cwd fp s q st).2) ∧
    (∀ fp s r c v, KeyInv (updateCell home cwd fp s r c v st).2) ∧
    (∀ fp s values, KeyInv (addRow home cwd fp s values st).2) ∧
    (∀ fp s headers, KeyInv (createSheet home cwd fp s headers st).2) := by
  refine ⟨fun fp => keyInv_listSheets home cwd fp st hinv,
    fun fp s => keyInv_getSheetData home cwd fp s st hinv,
    fun fp sn => ?_,
    fun queryFn fp s q => keyInv_queryExcel queryFn home cwd fp s q st hinv,
    fun fp s r c v => ?_,
    fun fp s values => ?_,
    fun fp s headers => ?_⟩
  · rw [readExcel_snd]
    exact hinv
  · rw [updateCell_snd]
    exact keyInv_updateCellE home cwd fp s r c v st hinv
  · rw [addRow_snd]
    exact keyInv_addRowE home cwd fp s values st hinv
  · rw [createSheet_snd]
    exact keyInv_createSheetE home cwd fp s headers st hinv

/-- Witness for C10: the invariant holds for the fresh fixture state and is
kept by a create_sheet call on it. -/
theorem c10_key_invariant_witness :
    KeyInv stFresh ∧ KeyInv (createSheet "/h" "/c" "/f.xlsx" "New" ["A"] stFresh).2 := by
  have hinv : KeyInv stFresh := by
    intro q
    rfl
  exact ⟨hinv, (c10_key_invariant "/h" "/c" stFresh hinv).2.2.2.2.2.2 "/f.xlsx" "New" ["A"]⟩

/- ----------------------------------------------------------------
Claim C8: the path normalizer as a cache key.
---------------------------------------------------------------- -/

/-- C8 fails as stated: two textual paths can denote the same file through a
symbolic link, and `os.path.abspath` performs only lexical normalization, so
the two cache keys differ.  Concretely, with /data/link.xlsx a symlink to
/data/real.xlsx, the two paths denote the same file yet get distinct keys. -/
theorem c8_symlink_counterexample :
    denotesSameFile [("/data/link.xlsx", "/data/real.xlsx")] "/home/u" "/w"
      "/data/link.xlsx" "/data/real.xlsx" ∧
    normalize_path "/home/u" "/w" "/data/link.xlsx" ≠
      normalize_path "/home/u" "/w" "/data/real.xlsx" := by
  constructor
  · rfl
  · decide

/-- C8 (amended): `normalize_path` is a total function of the path (given
the process home and cwd), and it does produce identical cache keys for the
equivalences the normalizer actually performs — a home-relative path `~/r`
against its tilde-expanded form, and a relative path against its
cwd-prefixed absolute form; it does not identify paths that denote the same
file only through symbolic links. -/
theorem c8_amended_normalizer (home cwd rest p : String)
    (h1 : rstripSlash home.data = home.data)
    (h2 : (home.data ++ '/' :: rest.data).head? ≠ some '~')
    (h3 : cwd.data.head? = some '/')
    (h4 : cwd.data.getLast? ≠ some '/')
    (h5 : p.data.head? ≠ some '/')
    (h6 : p.data.head? ≠ some '~') :
    normalize_path home cwd ⟨'~' :: '/' :: rest.data⟩ =
      normalize_path home cwd ⟨home.data ++ '/' :: rest.data⟩ ∧
    normalize_path home cwd p = normalize_path home cwd ⟨cwd.data ++ '/' :: p.data⟩ := by
  constructor
  · have e1 : expanduserL home.data ('~' :: '/' :: rest.data) =
        home.data ++ '/' :: rest.data := by
      simp [expanduserL, h1]
    have e2 : expanduserL home.data (home.data ++ '/' :: rest.data) =
        home.data ++ '/' :: rest.data := by
      unfold expanduserL
      rw [if_neg h2]
    have key : abspathL cwd.data (expanduserL home.data ('~' :: '/' :: rest.data)) =
        abspathL cwd.data (expanduserL home.data (home.data ++ '/' :: rest.data)) := by
      rw [e1, e2]
    exact congrArg (fun l => (⟨l⟩ : String)) key
  · have e3 : expanduserL home.data p.data = p.data := by
      unfold expanduserL
      rw [if_neg h6]
    have e4 : isAbsL p.data = false := by
      simp [isAbsL, h5]
    have e6 : expanduserL home.data (cwd.data ++ '/' :: p.data) =
        cwd.data ++ '/' :: p.data := by
      unfold expanduserL
      rw [if_neg]
      cases hcw : cwd.data with
      | nil => rw [hcw] at h3; cases h3
      | cons ch ct =>
        rw [hcw] at h3
        simp at h3
        subst h3
        simp
    have e7 : isAbsL (cwd.data ++ '/' :: p.data) = true := by
      cases hcw : cwd.data with
      | nil => rw [hcw] at h3; cases h3
      | cons ch ct =>
        rw [hcw] at h3
        simp at h3
        subst h3
        simp [isAbsL]
    have e5 : joinL cwd.data p.data = cwd.data ++ '/' :: p.data := by
      have hne : cwd.data ≠ [] := by
        intro hnil
        rw [hnil] at h3
        cases h3
      simp [joinL, e4, hne, h4]
    have key : abspathL cwd.data (expanduserL home.data p.data) =
        abspathL cwd.data (expanduserL home.data (cwd.data ++ '/' :: p.data)) := by
      rw [e3, e6]
      unfold abspathL
      rw [e4]
      simp only [Bool.false_eq_true, if_false]
      rw [e5, e7]
      simp
    exact congrArg (fun l => (⟨l⟩ : String)) key

/-- Witness for the amended C8 at a concrete home, cwd and file name. -/
theorem c8_amended_normalizer_witness :
    rstripSlash "/home/u".data = "/home/u".data ∧
    (normalize_path "/home/u" "/w" ⟨'~' :: '/' :: "f.xlsx".data⟩ =
       normalize_path "/home/u" "/w" ⟨"/home/u".data ++ '/' :: "f.xlsx".data⟩ ∧
     normalize_path "/home/u" "/w" "rel.xlsx" =
       normalize_path "/home/u" "/w" ⟨"/w".data ++ '/' :: "rel.xlsx".data⟩) :=
  ⟨by decide,
   c8_amended_normalizer "/home/u" "/w" "f.xlsx" "rel.xlsx" (by decide) (by decide)
     (by decide) (by decide) (by decide) (by decide)⟩
